import Mathlib

/-!
Verification of the knowledge-mcp server (Go) against its specification.

The development shallowly embeds the core of the program: the `Learning` data
model, the SQLite-backed storage implementation (`backend_sqlite.go`), the
Chroma-backed remote storage implementation (`backend_chroma.go`), the tool
router (`tools.go`) and the JSON-RPC dispatcher (`server.go`).

Modelling conventions, used throughout:
- Go `float64` values (confidence scores, JSON numbers) are modelled as
  exact rationals (`ℚ`); no verified property depends on rounding.
- Instants (`time.Time`, `UnixNano`) are modelled as nonnegative nanosecond
  counts (`Nat`).
- An RFC-3339 timestamp string is modelled by the distinguished metadata
  constructor `MetaVal.timeStr t` carrying the instant it denotes, while
  `MetaVal.str s` stands for every string that is not a valid RFC-3339
  timestamp; parsing succeeds exactly on the former, as in the Go code,
  where `time.Parse` partitions the strings the same way.
- The SQL engine and the remote Chroma service are modelled by their
  documented semantics: a table is a list of rows, `WHERE` clauses are
  filters, `LIMIT` is `take`, and `ORDER BY` is a sort; full-text bm25
  rank and vector similarity order are abstracted to store order, which no
  verified property depends on.
-/

/-- Model of Go `float64` values occurring in the program. -/
abbrev GoFloat := ℚ

/-- Instants: nanoseconds since the epoch, as in Go `time.Time`. -/
abbrev Instant := Nat

/-- Go `int(x)` conversion from `float64`: truncation toward zero. -/
def ratTrunc (q : GoFloat) : Int :=
  if 0 ≤ q then q.floor else q.ceil

/-- Digits-only parse of a string to a number: the numeric conversion
SQLite affinity applies to a text operand compared with an INTEGER
column. Implemented over the character list so that it evaluates in the
kernel. -/
def charsToNat? (cs : List Char) : Option Nat :=
  if cs ≠ [] ∧ cs.all (fun c => c.isDigit) then
    some (cs.foldl (fun n c => n * 10 + (c.toNat - 48)) 0)
  else none

def strToNat? (s : String) : Option Nat := charsToNat? s.data

/-- `strings.Fields`: whitespace-separated words, empty fields dropped.
`acc` holds the characters of the current word in reverse. -/
def goFieldsAux : List Char → List Char → List String
  | acc, [] => if acc.isEmpty then [] else [String.mk acc.reverse]
  | acc, c :: cs =>
    if c.isWhitespace then
      if acc.isEmpty then goFieldsAux [] cs
      else String.mk acc.reverse :: goFieldsAux [] cs
    else goFieldsAux (c :: acc) cs

def goFields (s : String) : List String := goFieldsAux [] s.data

/-- Substring occurrence, modelling SQL `LIKE given-pattern-percent-w-percent`:
`strContains s pat` holds when `pat` occurs contiguously inside `s`. -/
def strContains (s pat : String) : Bool :=
  s.data.tails.any (fun t => pat.data.isPrefixOf t)

/-- Insertion into a list sorted by `le`; models the engine-side `ORDER BY`
and the Go `sort.Slice` call. -/
def insertSorted {α : Type} (le : α → α → Bool) (a : α) : List α → List α
  | [] => [a]
  | b :: l => if le a b then a :: b :: l else b :: insertSorted le a l

/-- Insertion sort by `le`. -/
def sortBy {α : Type} (le : α → α → Bool) : List α → List α
  | [] => []
  | a :: l => insertSorted le a (sortBy le l)

/-- The `Learning` value type (`types.go`). -/
structure Learning where
  id : String
  category : String
  content : String
  tags : String
  confidence : GoFloat
  useCount : Int
  createdAt : Instant
  updatedAt : Instant
deriving DecidableEq

/-- The six recognized categories (`validCategories` in `tools.go`). -/
def validCategories : List String :=
  ["preferences", "personal_context", "technical", "personal_growth", "mistakes", "general"]

/- ───────────────────────── SQLite backend ───────────────────────── -/

/-- One row of the `learnings` table. -/
structure SQLiteRow where
  id : Nat
  category : String
  content : String
  tags : String
  confidence : GoFloat
  useCount : Int
  createdAt : Instant
  updatedAt : Instant
deriving DecidableEq

/-- The SQLite backend state: the `learnings` table, the AUTOINCREMENT
counter, and whether the FTS5 virtual table and triggers exist. The Go
struct holds only the database handle; `ftsOk` is the corresponding piece
of database state, not a field of the Go struct. -/
structure SQLiteDB where
  rows : List SQLiteRow
  nextId : Nat
  ftsOk : Bool
deriving DecidableEq

/-- `SQLiteBackend.migrate`: creates the table, then best-effort creates
the FTS5 index and triggers; a creation failure is only logged and
`migrate` still succeeds, leaving the database without the index. -/
def SQLiteBackend.migrate (fts5Available : Bool) : SQLiteDB :=
  { rows := [], nextId := 1, ftsOk := fts5Available }

/-- Comparison of the INTEGER `id` column with a string parameter, with
SQLite numeric affinity conversion of the text operand. -/
def sqliteIdMatches (r : SQLiteRow) (id : String) : Bool :=
  strToNat? id == some r.id

def rowToLearning (r : SQLiteRow) : Learning :=
  { id := toString r.id, category := r.category, content := r.content,
    tags := r.tags, confidence := r.confidence, useCount := r.useCount,
    createdAt := r.createdAt, updatedAt := r.updatedAt }

/-- `SQLiteBackend.Add`. -/
def SQLiteDB.add (db : SQLiteDB) (now : Instant) (category content tags : String)
    (confidence : GoFloat) : Learning × SQLiteDB :=
  let r : SQLiteRow :=
    { id := db.nextId, category := category, content := content, tags := tags,
      confidence := confidence, useCount := 0, createdAt := now, updatedAt := now }
  ({ id := toString db.nextId, category := category, content := content,
     tags := tags, confidence := confidence, useCount := 0,
     createdAt := now, updatedAt := now },
   { db with rows := db.rows ++ [r], nextId := db.nextId + 1 })

/-- The statements `SQLiteBackend.Search` issues against the database. -/
inductive SQLQuery where
  | ftsMatch
  | likeScan
deriving DecidableEq

/-- FTS5 MATCH of the OR-joined query words against the indexed
(content, tags, category) columns; tokenization simplified to whitespace. -/
def ftsRowMatches (words : List String) (r : SQLiteRow) : Bool :=
  words.any (fun w =>
    w ∈ goFields r.content || w ∈ goFields r.tags || w ∈ goFields r.category)

/-- The fallback row predicate: some query word occurs as a substring of
content or tags; an empty word list degenerates to the always-true
clause `1=1` exactly as in the Go code. -/
def likeRowMatches (words : List String) (r : SQLiteRow) : Bool :=
  if words.isEmpty then true
  else words.any (fun w => strContains r.content w || strContains r.tags w)

def categoryClause (category : String) (r : SQLiteRow) : Bool :=
  category == "" || r.category == category

/-- The fallback path of `SQLiteBackend.Search` in isolation: per-word
LIKE scan, category filter, ORDER BY confidence DESC then use_count DESC,
LIMIT. -/
def SQLiteDB.likeFallback (db : SQLiteDB) (query category : String) (limit : Int) :
    List Learning :=
  let lim := if limit ≤ 0 then 10 else limit
  let words := goFields query
  let matched := db.rows.filter (fun r => likeRowMatches words r && categoryClause category r)
  ((sortBy (fun a b =>
      b.confidence < a.confidence || (b.confidence == a.confidence && b.useCount ≤ a.useCount))
    matched).take lim.toNat).map rowToLearning

/-- `SQLiteBackend.Search`, returning both the trace of statements issued
and the result rows. The FTS query is attempted on every call; it fails
when the virtual table is absent, and only then is the LIKE fallback
issued. Failure modes of the MATCH expression other than a missing table
are not modelled. -/
def SQLiteDB.search (db : SQLiteDB) (query category : String) (limit : Int) :
    List SQLQuery × List Learning :=
  let lim := if limit ≤ 0 then 10 else limit
  let words := goFields query
  if db.ftsOk then
    let matched := db.rows.filter (fun r => ftsRowMatches words r && categoryClause category r)
    ([SQLQuery.ftsMatch],
     ((sortBy (fun a b => b.confidence ≤ a.confidence) matched).take lim.toNat).map rowToLearning)
  else
    ([SQLQuery.ftsMatch, SQLQuery.likeScan],
     db.likeFallback query category limit)

/-- `SQLiteBackend.List`. -/
def SQLiteDB.list (db : SQLiteDB) (category : String) (limit : Int) : List Learning :=
  let lim := if limit ≤ 0 then 50 else limit
  let filtered := db.rows.filter (fun r => categoryClause category r)
  ((sortBy (fun a b => b.updatedAt ≤ a.updatedAt) filtered).take lim.toNat).map rowToLearning

/-- `SQLiteBackend.Update`: a single UPDATE statement touching only
content, tags, confidence and updated_at. -/
def SQLiteDB.update (db : SQLiteDB) (now : Instant) (id content tags : String)
    (confidence : GoFloat) : SQLiteDB :=
  { db with
    rows := db.rows.map (fun r =>
      if sqliteIdMatches r id then
        { r with content := content, tags := tags, confidence := confidence, updatedAt := now }
      else r) }

/-- `SQLiteBackend.Delete`. -/
def SQLiteDB.delete (db : SQLiteDB) (id : String) : SQLiteDB :=
  { db with rows := db.rows.filter (fun r => !sqliteIdMatches r id) }

/-- `SQLiteBackend.IncrementUseCount`: single atomic increment; does not
touch updated_at. -/
def SQLiteDB.increment (db : SQLiteDB) (id : String) : SQLiteDB :=
  { db with
    rows := db.rows.map (fun r =>
      if sqliteIdMatches r id then { r with useCount := r.useCount + 1 } else r) }

/-- `SQLiteBackend.Stats`: per-category counts. -/
def SQLiteDB.stats (db : SQLiteDB) : List (String × Nat) :=
  ((db.rows.map (fun r => r.category)).dedup).map
    (fun c => (c, (db.rows.filter (fun r => r.category == c)).length))

/-- First row matched by an id parameter. -/
def SQLiteDB.findRow (db : SQLiteDB) (id : String) : Option SQLiteRow :=
  db.rows.find? (fun r => sqliteIdMatches r id)

/- ───────────────────────── Chroma backend ───────────────────────── -/

/-- A dynamically-typed metadata value, as Go sees a decoded JSON value.
`timeStr t` stands for a string that is a valid RFC-3339 timestamp
denoting instant `t`; `str s` stands for every other string. `int` and
`float` mirror the two numeric dynamic types the Go switch handles. -/
inductive MetaVal where
  | str (s : String)
  | timeStr (t : Instant)
  | int (n : Int)
  | float (q : GoFloat)
  | boolVal (b : Bool)
deriving DecidableEq

/-- One record of the remote collection: id, document body, metadata. -/
structure ChromaRec where
  id : String
  doc : String
  meta : List (String × MetaVal)
deriving DecidableEq

/-- The contents of the remote collection. -/
abbrev ChromaStore := List ChromaRec

/-- `metaToLearning`: tolerant decode of one id/document/metadata triple.
Every field is read with a checked type assertion; a missing or
unexpectedly-typed value leaves the field at its zero value. Reading a
valid timestamp string through the plain string assertion yields its
rendering. -/
def metaToLearning (id doc : String) (meta : List (String × MetaVal)) : Learning :=
  { id := id
    content := doc
    category :=
      match meta.lookup ("category") with
      | some (MetaVal.str s) => s
      | some (MetaVal.timeStr t) => Nat.repr t
      | _ => ""
    tags :=
      match meta.lookup ("tags") with
      | some (MetaVal.str s) => s
      | some (MetaVal.timeStr t) => Nat.repr t
      | _ => ""
    confidence :=
      match meta.lookup ("confidence") with
      | some (MetaVal.float q) => q
      | _ => 0
    useCount :=
      match meta.lookup ("use_count") with
      | some (MetaVal.float q) => ratTrunc q
      | some (MetaVal.int n) => n
      | _ => 0
    createdAt :=
      match meta.lookup ("created_at") with
      | some (MetaVal.timeStr t) => t
      | _ => 0
    updatedAt :=
      match meta.lookup ("updated_at") with
      | some (MetaVal.timeStr t) => t
      | _ => 0 }

/-- `chromaGetToLearnings`: decodes the parallel id/document/metadata
arrays of a `/get` response, guarding each index against short arrays as
the Go loop does. -/
def chromaGetToLearnings : List String → List String → List (List (String × MetaVal)) →
    List Learning
  | [], _, _ => []
  | id :: ids, docs, metas =>
      metaToLearning id (docs.headD ("")) (metas.headD []) ::
      chromaGetToLearnings ids docs.tail metas.tail

/-- `chromaResultsToLearnings`: decodes the aligned arrays of a `/query`
response. -/
def chromaResultsToLearnings : List String → List String → List (List (String × MetaVal)) →
    List Learning
  | id :: ids, doc :: docs, meta :: metas =>
      metaToLearning id doc meta :: chromaResultsToLearnings ids docs metas
  | _, _, _ => []

/-- The remote side of a category equality predicate
(metadata `where category $eq c`). -/
def chromaWhereCat (category : String) (r : ChromaRec) : Bool :=
  category == "" || r.meta.lookup ("category") == some (MetaVal.str category)

/-- `ChromaBackend.getByID`: `/get` restricted to one id; a failed call
surfaces the transport error, an empty result surfaces `not found`. The
`netOk` flag models the outcome of the outbound HTTP call. -/
def ChromaStore.getByID (st : ChromaStore) (netOk : Bool) (id : String) :
    Except String Learning :=
  if netOk then
    let hits := st.filter (fun r => r.id == id)
    match chromaGetToLearnings (hits.map (fun r => r.id)) (hits.map (fun r => r.doc))
        (hits.map (fun r => r.meta)) with
    | [] => Except.error ("not found: " ++ id)
    | l :: _ => Except.ok l
  else Except.error ("chroma POST /get failed")

/-- `ChromaBackend.Add`: the id is the nanosecond timestamp rendered in
decimal; all other fields become metadata entries. The optional embedding
call does not affect the stored fields or the returned value and is not
modelled. -/
def ChromaStore.add (st : ChromaStore) (netOk : Bool) (now : Instant)
    (category content tags : String) (confidence : GoFloat) :
    Except String (Learning × ChromaStore) :=
  let id := Nat.repr now
  if netOk then
    Except.ok
      ({ id := id, category := category, content := content, tags := tags,
         confidence := confidence, useCount := 0, createdAt := now, updatedAt := now },
       st ++ [{ id := id, doc := content,
                meta := [("category", MetaVal.str category), ("tags", MetaVal.str tags),
                         ("confidence", MetaVal.float confidence),
                         ("use_count", MetaVal.int 0),
                         ("created_at", MetaVal.timeStr now),
                         ("updated_at", MetaVal.timeStr now)] }])
  else Except.error ("chroma POST /add failed")

/-- `ChromaBackend.Search`: a `/query` call with the category passed as a
metadata equality predicate; similarity ranking is abstracted to store
order. Embedding-versus-text query selection does not change the decoded
result shape and is not modelled. -/
def ChromaStore.searchOp (st : ChromaStore) (netOk : Bool) (query category : String)
    (limit : Int) : Except String (List Learning) :=
  let lim := if limit ≤ 0 then 10 else limit
  if netOk then
    let hits := (st.filter (fun r => chromaWhereCat category r)).take lim.toNat
    Except.ok (chromaResultsToLearnings (hits.map (fun r => r.id))
      (hits.map (fun r => r.doc)) (hits.map (fun r => r.meta)))
  else Except.error ("chroma POST /query failed")

/-- `ChromaBackend.List`: a metadata-filtered `/get`, then a client-side
sort by updated_at descending. -/
def ChromaStore.listOp (st : ChromaStore) (netOk : Bool) (category : String)
    (limit : Int) : Except String (List Learning) :=
  let lim := if limit ≤ 0 then 50 else limit
  if netOk then
    let hits := (st.filter (fun r => chromaWhereCat category r)).take lim.toNat
    Except.ok (sortBy (fun a b => b.updatedAt < a.updatedAt)
      (chromaGetToLearnings (hits.map (fun r => r.id)) (hits.map (fun r => r.doc))
        (hits.map (fun r => r.meta))))
  else Except.error ("chroma POST /get failed")

/-- The `/update` endpoint: whole-record replacement of the document and
metadata of the record with the given id. -/
def chromaWrite (st : ChromaStore) (id doc : String) (meta : List (String × MetaVal)) :
    ChromaStore :=
  st.map (fun r => if r.id == id then { r with doc := doc, meta := meta } else r)

/-- `ChromaBackend.Update`: fetch-by-id, merge, whole-record rewrite.
The fetch error is discarded (`existing, _ := b.getByID(id)`); when the
fetch failed or found nothing the rewrite proceeds with defaults
(category `general`, use_count 0, created_at stamped now). -/
def ChromaStore.update (st : ChromaStore) (fetchOk writeOk : Bool) (now : Instant)
    (id content tags : String) (confidence : GoFloat) : Except String ChromaStore :=
  let existing := (st.getByID fetchOk id).toOption
  let useCount : Int := match existing with | some l => l.useCount | none => 0
  let category : String := match existing with | some l => l.category | none => "general"
  let createdAt : Instant := match existing with | some l => l.createdAt | none => now
  if writeOk then
    Except.ok (chromaWrite st id content
      [("category", MetaVal.str category), ("tags", MetaVal.str tags),
       ("confidence", MetaVal.float confidence), ("use_count", MetaVal.int useCount),
       ("created_at", MetaVal.timeStr createdAt), ("updated_at", MetaVal.timeStr now)])
  else Except.error ("chroma POST /update failed")

/-- `ChromaBackend.Delete`. -/
def ChromaStore.deleteOp (st : ChromaStore) (netOk : Bool) (id : String) :
    Except String ChromaStore :=
  if netOk then Except.ok (st.filter (fun r => !(r.id == id)))
  else Except.error ("chroma POST /delete failed")

/-- `ChromaBackend.IncrementUseCount`: fetch-merge-rewrite, incrementing
use_count relative to the fetched value; every failure is swallowed. The
timestamps are rewritten from the fetched values unchanged. -/
def ChromaStore.increment (st : ChromaStore) (fetchOk writeOk : Bool) (id : String) :
    ChromaStore :=
  match st.getByID fetchOk id with
  | Except.error _ => st
  | Except.ok l =>
    if writeOk then
      chromaWrite st id l.content
        [("category", MetaVal.str l.category), ("tags", MetaVal.str l.tags),
         ("confidence", MetaVal.float l.confidence),
         ("use_count", MetaVal.int (l.useCount + 1)),
         ("created_at", MetaVal.timeStr l.createdAt),
         ("updated_at", MetaVal.timeStr l.updatedAt)]
    else st

/-- `ChromaBackend.Stats`: all metadata fetched, categories tallied
client-side; records without a string category are skipped. -/
def ChromaStore.statsOp (st : ChromaStore) (netOk : Bool) :
    Except String (List (String × Nat)) :=
  if netOk then
    let cats := st.filterMap (fun r =>
      match r.meta.lookup ("category") with
      | some (MetaVal.str s) => some s
      | _ => none)
    Except.ok (cats.dedup.map (fun c => (c, (cats.filter (fun x => x == c)).length)))
  else Except.error ("chroma POST /get failed")

/-- The record currently stored under an id. -/
def chromaFind (st : ChromaStore) (id : String) : Option ChromaRec :=
  st.find? (fun r => r.id == id)

/-- The decoded view of one stored record. -/
def decodeRec (r : ChromaRec) : Learning :=
  metaToLearning r.id r.doc r.meta

/- ───────────────────────── Tool router ───────────────────────── -/

/-- JSON values, for the tool-call argument payloads. -/
inductive Json where
  | null
  | boolVal (b : Bool)
  | num (q : ℚ)
  | str (s : String)
  | arr (elems : List Json)
  | obj (fields : List (String × Json))

/-- A raw argument payload (`json.RawMessage`): `none` models an absent
or syntactically unusable message, `some j` a parsed JSON value. -/
abbrev RawArgs := Option Json

/-- One rendered content block. -/
structure ContentBlock where
  kind : String
  text : String
deriving DecidableEq

/-- A tool invocation result; `isError` flags tool-level failure. -/
structure ToolResult where
  content : List ContentBlock
  isError : Bool
deriving DecidableEq

def textResult (text : String) : ToolResult :=
  { content := [{ kind := "text", text := text }], isError := false }

def errorResult (text : String) : ToolResult :=
  { content := [{ kind := "text", text := text }], isError := true }

/-!
Argument decoding mirrors `encoding/json` unmarshalling into the handler
parameter structs: a type error is recorded while decoding continues, so
the fields that do match keep their decoded values and the rest stay at
zero; `Unmarshal` then reports the recorded error. The decode of each handler
is therefore split into a total value part (`...Of`) and an error flag
(`...DecodeFailed`).
-/

def argsObj (args : RawArgs) : List (String × Json) :=
  match args with
  | some (Json.obj kvs) => kvs
  | _ => []

/-- Whether unmarshalling the payload into a struct fails at the root:
no payload at all, or a non-object non-null value. -/
def argsRootBad (args : RawArgs) : Bool :=
  match args with
  | none => true
  | some (Json.obj _) => false
  | some Json.null => false
  | some _ => true

def strFieldOf (kvs : List (String × Json)) (key : String) : String :=
  match kvs.lookup key with
  | some (Json.str s) => s
  | _ => ""

def strFieldBad (kvs : List (String × Json)) (key : String) : Bool :=
  match kvs.lookup key with
  | none => false
  | some (Json.str _) => false
  | some Json.null => false
  | some _ => true

/-- A Go `int` field accepts only an integral JSON number. -/
def intFieldOf (kvs : List (String × Json)) (key : String) : Int :=
  match kvs.lookup key with
  | some (Json.num q) => if q.den == 1 then q.num else 0
  | _ => 0

def intFieldBad (kvs : List (String × Json)) (key : String) : Bool :=
  match kvs.lookup key with
  | none => false
  | some Json.null => false
  | some (Json.num q) => !(q.den == 1)
  | some _ => true

def floatFieldOf (kvs : List (String × Json)) (key : String) : GoFloat :=
  match kvs.lookup key with
  | some (Json.num q) => q
  | _ => 0

def floatFieldBad (kvs : List (String × Json)) (key : String) : Bool :=
  match kvs.lookup key with
  | none => false
  | some Json.null => false
  | some (Json.num _) => false
  | some _ => true

/-- Stand-in text for the error string `encoding/json` reports. -/
def decodeErrMsg : String := "json: cannot unmarshal arguments"

def defaultConfidence : GoFloat := 4 / 5

structure LookupParams where
  query : String
  category : String
  limit : Int
deriving DecidableEq

def lookupParamsOf (args : RawArgs) : LookupParams :=
  { query := strFieldOf (argsObj args) ("query"),
    category := strFieldOf (argsObj args) ("category"),
    limit := intFieldOf (argsObj args) ("limit") }

def lookupDecodeFailed (args : RawArgs) : Bool :=
  argsRootBad args || strFieldBad (argsObj args) ("query") ||
    strFieldBad (argsObj args) ("category") || intFieldBad (argsObj args) ("limit")

structure StoreParams where
  category : String
  content : String
  tags : String
  confidence : GoFloat
deriving DecidableEq

def storeParamsOf (args : RawArgs) : StoreParams :=
  { category := strFieldOf (argsObj args) ("category"),
    content := strFieldOf (argsObj args) ("content"),
    tags := strFieldOf (argsObj args) ("tags"),
    confidence := floatFieldOf (argsObj args) ("confidence") }

def storeDecodeFailed (args : RawArgs) : Bool :=
  argsRootBad args || strFieldBad (argsObj args) ("category") ||
    strFieldBad (argsObj args) ("content") || strFieldBad (argsObj args) ("tags") ||
    floatFieldBad (argsObj args) ("confidence")

structure ListParams where
  category : String
  limit : Int
deriving DecidableEq

def listParamsOf (args : RawArgs) : ListParams :=
  { category := strFieldOf (argsObj args) ("category"),
    limit := intFieldOf (argsObj args) ("limit") }

def listDecodeFailed (args : RawArgs) : Bool :=
  argsRootBad args || strFieldBad (argsObj args) ("category") ||
    intFieldBad (argsObj args) ("limit")

structure UpdateParams where
  id : String
  content : String
  tags : String
  confidence : GoFloat
deriving DecidableEq

def updateParamsOf (args : RawArgs) : UpdateParams :=
  { id := strFieldOf (argsObj args) ("id"),
    content := strFieldOf (argsObj args) ("content"),
    tags := strFieldOf (argsObj args) ("tags"),
    confidence := floatFieldOf (argsObj args) ("confidence") }

def updateDecodeFailed (args : RawArgs) : Bool :=
  argsRootBad args || strFieldBad (argsObj args) ("id") ||
    strFieldBad (argsObj args) ("content") || strFieldBad (argsObj args) ("tags") ||
    floatFieldBad (argsObj args) ("confidence")

def deleteParamOf (args : RawArgs) : String :=
  strFieldOf (argsObj args) ("id")

def deleteDecodeFailed (args : RawArgs) : Bool :=
  argsRootBad args || strFieldBad (argsObj args) ("id")

/-- The storage contract (`Backend` interface in `types.go`), as a record
of state transformers over a backend state `σ`. -/
structure BackendOps (σ : Type) where
  addOp : σ → String → String → String → GoFloat → Except String Learning × σ
  searchOp : σ → String → String → Int → Except String (List Learning) × σ
  listOp : σ → String → Int → Except String (List Learning) × σ
  updateOp : σ → String → String → String → GoFloat → Except String Unit × σ
  deleteOp : σ → String → Except String Unit × σ
  incrementOp : σ → String → σ
  statsOp : σ → Except String (List (String × Nat)) × σ

/-- Exact rational rendering standing in for the `%.1f` formatting of a
confidence value; no verified property depends on the digits. -/
def ratRepr (q : GoFloat) : String :=
  Int.repr q.num ++ "/" ++ Nat.repr q.den

def renderLookupLine (l : Learning) : String :=
  "--- [ID:" ++ l.id ++ " | " ++ l.category ++ " | confidence:" ++ ratRepr l.confidence ++
    "]\n" ++ l.content ++ "\n" ++
    (if l.tags == "" then ("") else ("tags: " ++ l.tags ++ "\n")) ++ "\n"

def renderListLine (l : Learning) : String :=
  "[ID:" ++ l.id ++ " | " ++ l.category ++ " | confidence:" ++ ratRepr l.confidence ++
    " | used:" ++ Int.repr l.useCount ++ " times]\n" ++ l.content ++ "\n" ++
    (if l.tags == "" then ("") else ("tags: " ++ l.tags ++ "\n")) ++
    "updated: " ++ Nat.repr l.updatedAt ++ "\n\n"

/-- `handleLookup`: decode, search, render; the use
count of every surfaced result is incremented. -/
def handleLookup {σ : Type} (ops : BackendOps σ) (st : σ) (args : RawArgs) :
    ToolResult × σ :=
  if lookupDecodeFailed args then
    (errorResult ("invalid arguments: " ++ decodeErrMsg), st)
  else
    let p := lookupParamsOf args
    let lim := if p.limit ≤ 0 then 10 else p.limit
    match ops.searchOp st p.query p.category lim with
    | (Except.error e, st1) => (errorResult ("search failed: " ++ e), st1)
    | (Except.ok ls, st1) =>
      if ls.isEmpty then
        (textResult ("No relevant learnings found. This may be a new topic or a fresh start."), st1)
      else
        (textResult ("Found " ++ Nat.repr ls.length ++ " relevant learnings:\n\n" ++
           String.join (ls.map renderLookupLine)),
         ls.foldl (fun s l => ops.incrementOp s l.id) st1)

/-- `handleStore`: decode strictly; zero confidence defaults to 0.8 and
an empty category to `general`; anything else is persisted as given. -/
def handleStore {σ : Type} (ops : BackendOps σ) (st : σ) (args : RawArgs) :
    ToolResult × σ :=
  if storeDecodeFailed args then
    (errorResult ("invalid arguments: " ++ decodeErrMsg), st)
  else
    let p := storeParamsOf args
    let conf := if p.confidence == 0 then defaultConfidence else p.confidence
    let cat := if p.category == "" then ("general") else p.category
    match ops.addOp st cat p.content p.tags conf with
    | (Except.error e, st1) => (errorResult ("failed to store: " ++ e), st1)
    | (Except.ok l, st1) =>
      (textResult ("Learning stored successfully with ID:" ++ l.id ++
         " in category \x27" ++ l.category ++ "\x27."), st1)

/-- `handleList`: the decode error is ignored (`json.Unmarshal(args, &p)`
with the return value discarded), so the handler proceeds with whatever
fields decoded. -/
def handleList {σ : Type} (ops : BackendOps σ) (st : σ) (args : RawArgs) :
    ToolResult × σ :=
  let p := listParamsOf args
  let lim := if p.limit ≤ 0 then 50 else p.limit
  match ops.listOp st p.category lim with
  | (Except.error e, st1) => (errorResult ("list failed: " ++ e), st1)
  | (Except.ok ls, st1) =>
    if ls.isEmpty then (textResult ("No learnings stored yet."), st1)
    else
      (textResult ("Stored learnings (" ++ Nat.repr ls.length ++ "):\n\n" ++
         String.join (ls.map renderListLine)), st1)

/-- `handleUpdate`: decode strictly; zero confidence defaults to 0.8. -/
def handleUpdate {σ : Type} (ops : BackendOps σ) (st : σ) (args : RawArgs) :
    ToolResult × σ :=
  if updateDecodeFailed args then
    (errorResult ("invalid arguments: " ++ decodeErrMsg), st)
  else
    let p := updateParamsOf args
    let conf := if p.confidence == 0 then defaultConfidence else p.confidence
    match ops.updateOp st p.id p.content p.tags conf with
    | (Except.error e, st1) => (errorResult ("update failed: " ++ e), st1)
    | (Except.ok _, st1) =>
      (textResult ("Learning ID:" ++ p.id ++ " updated successfully."), st1)

/-- `handleDelete`. -/
def handleDelete {σ : Type} (ops : BackendOps σ) (st : σ) (args : RawArgs) :
    ToolResult × σ :=
  if deleteDecodeFailed args then
    (errorResult ("invalid arguments: " ++ decodeErrMsg), st)
  else
    let id := deleteParamOf args
    match ops.deleteOp st id with
    | (Except.error e, st1) => (errorResult ("delete failed: " ++ e), st1)
    | (Except.ok _, st1) => (textResult ("Learning ID:" ++ id ++ " deleted."), st1)

def padTo20 (s : String) : String :=
  s ++ String.mk (List.replicate (20 - s.length) ' ')

/-- `handleStats`. -/
def handleStats {σ : Type} (ops : BackendOps σ) (st : σ) : ToolResult × σ :=
  match ops.statsOp st with
  | (Except.error e, st1) => (errorResult ("stats failed: " ++ e), st1)
  | (Except.ok stats, st1) =>
    let total := stats.foldl (fun n p => n + p.2) 0
    (textResult ("Learnings by category:\n" ++
       String.join (stats.map (fun p => "  " ++ padTo20 p.1 ++ " " ++ Nat.repr p.2 ++ "\n")) ++
       "\nTotal: " ++ Nat.repr total ++ " learnings\n"), st1)

/-- The six tool names the router dispatches on. -/
def toolNames : List String :=
  ["lookup_context", "store_learning", "list_learnings",
   "update_learning", "delete_learning", "get_stats"]

/-- `HandleTool`: routes a named tool invocation; an unknown name yields
an error-flagged text result. -/
def HandleTool {σ : Type} (ops : BackendOps σ) (st : σ) (name : String) (args : RawArgs) :
    ToolResult × σ :=
  if name == "lookup_context" then handleLookup ops st args
  else if name == "store_learning" then handleStore ops st args
  else if name == "list_learnings" then handleList ops st args
  else if name == "update_learning" then handleUpdate ops st args
  else if name == "delete_learning" then handleDelete ops st args
  else if name == "get_stats" then handleStats ops st
  else (errorResult ("unknown tool: " ++ name), st)

/-- The SQLite backend packaged behind the contract. The operations that
the Go side can only fail on engine faults are modelled as always
succeeding; the clock is supplied once. -/
def sqliteOps (now : Instant) : BackendOps SQLiteDB :=
  { addOp := fun db cat content tags conf =>
      let p := db.add now cat content tags conf
      (Except.ok p.1, p.2),
    searchOp := fun db q c lim => (Except.ok (db.search q c lim).2, db),
    listOp := fun db c lim => (Except.ok (db.list c lim), db),
    updateOp := fun db id content tags conf => (Except.ok (), db.update now id content tags conf),
    deleteOp := fun db id => (Except.ok (), db.delete id),
    incrementOp := fun db id => db.increment id,
    statsOp := fun db => (Except.ok db.stats, db) }

/- ───────────────────────── JSON-RPC dispatcher ───────────────────────── -/

structure RPCErrorM where
  code : Int
  message : String
deriving DecidableEq

/-- The result payloads the dispatcher can produce. -/
inductive RespVal where
  | initResult
  | nullResult
  | emptyObj
  | toolCatalog
  | toolResult (r : ToolResult)
deriving DecidableEq

/-- An inbound JSON-RPC request: `id := none` models an absent or null
identifier (a notification). -/
structure RequestM where
  id : Option Json
  method : String
  params : RawArgs

/-- A response body: the mirrored id and either a result or an error. -/
structure ResponseM where
  id : Option Json
  outcome : Except RPCErrorM RespVal

/-- Decoding of `tools/call` params into name and raw arguments; an
absent `arguments` key leaves a nil raw message. -/
def decodeToolCallParams (params : RawArgs) : Except String (String × RawArgs) :=
  match params with
  | none => Except.error ("invalid params")
  | some Json.null => Except.ok ("", none)
  | some (Json.obj kvs) =>
      if strFieldBad kvs ("name") then Except.error ("invalid params")
      else Except.ok (strFieldOf kvs ("name"), kvs.lookup ("arguments"))
  | some _ => Except.error ("invalid params")

/-- `Server.dispatch`: the fixed method table. -/
def dispatch {σ : Type} (ops : BackendOps σ) (st : σ) (req : RequestM) :
    Except RPCErrorM RespVal × σ :=
  if req.method == "initialize" then (Except.ok RespVal.initResult, st)
  else if req.method == "notifications/initialized" then (Except.ok RespVal.nullResult, st)
  else if req.method == "ping" then (Except.ok RespVal.emptyObj, st)
  else if req.method == "tools/list" then (Except.ok RespVal.toolCatalog, st)
  else if req.method == "tools/call" then
    match decodeToolCallParams req.params with
    | Except.error _ => (Except.error { code := -32602, message := "invalid params" }, st)
    | Except.ok p =>
        let r := HandleTool ops st p.1 p.2
        (Except.ok (RespVal.toolResult r.1), r.2)
  else (Except.error { code := -32601, message := "method not found: " ++ req.method }, st)

/-- `Server.handlePost` on a single (non-batch) request body: a
notification whose dispatch succeeded produces no response body (202);
every other case writes a response mirroring the request id. -/
def handleSingle {σ : Type} (ops : BackendOps σ) (st : σ) (req : RequestM) :
    Option ResponseM × σ :=
  let d := dispatch ops st req
  match req.id, d.1 with
  | none, Except.ok _ => (none, d.2)
  | _, _ => (some { id := req.id, outcome := d.1 }, d.2)

/-- `Server.handleBatch`: dispatches each element in order and collects a
response exactly for the elements that carried an identifier. -/
def handleBatch {σ : Type} (ops : BackendOps σ) (st : σ) :
    List RequestM → List ResponseM × σ
  | [] => ([], st)
  | req :: rest =>
      let d := dispatch ops st req
      let tail := handleBatch ops d.2 rest
      (if req.id.isSome then { id := req.id, outcome := d.1 } :: tail.1 else tail.1, tail.2)

/- ─────────────────── Concrete instances for the checks below ─────────────────── -/

/-- A store_learning argument payload carrying an unrecognized category. -/
def bogusArgs : RawArgs :=
  some (Json.obj [("category", Json.str ("bogus")), ("content", Json.str ("x")),
                  ("confidence", Json.num 1)])

def rowTech : SQLiteRow :=
  { id := 1, category := "technical", content := "hello world", tags := "",
    confidence := 1, useCount := 0, createdAt := 2, updatedAt := 2 }

def dbTech : SQLiteDB := { rows := [rowTech], nextId := 2, ftsOk := true }

def recTech : ChromaRec :=
  { id := "7", doc := "hello world",
    meta := [("category", MetaVal.str ("technical")), ("tags", MetaVal.str ("")),
             ("confidence", MetaVal.float 1), ("use_count", MetaVal.int 0),
             ("created_at", MetaVal.timeStr 2), ("updated_at", MetaVal.timeStr 2)] }

def stTech : ChromaStore := [recTech]

def rowUpd : SQLiteRow :=
  { id := 1, category := "preferences", content := "old", tags := "t",
    confidence := 1, useCount := 4, createdAt := 2, updatedAt := 2 }

def dbUpd : SQLiteDB := { rows := [rowUpd], nextId := 2, ftsOk := true }

def recUpd : ChromaRec :=
  { id := "9", doc := "old",
    meta := [("category", MetaVal.str ("preferences")), ("tags", MetaVal.str ("t")),
             ("confidence", MetaVal.float 1), ("use_count", MetaVal.int 4),
             ("created_at", MetaVal.timeStr 2), ("updated_at", MetaVal.timeStr 2)] }

def stUpd : ChromaStore := [recUpd]

/-- Shape checks on a dynamic metadata value, for stating the tolerant
zero-value clauses of the tolerant decode. -/
def isStrLike : Option MetaVal → Bool
  | some (MetaVal.str _) => true
  | some (MetaVal.timeStr _) => true
  | _ => false

def isFloatLike : Option MetaVal → Bool
  | some (MetaVal.float _) => true
  | _ => false

def isNumLike : Option MetaVal → Bool
  | some (MetaVal.float _) => true
  | some (MetaVal.int _) => true
  | _ => false

def isTimeLike : Option MetaVal → Bool
  | some (MetaVal.timeStr _) => true
  | _ => false

/- ───────────────────────── Helper lemmas ───────────────────────── -/

theorem mem_insertSorted {α : Type} (le : α → α → Bool) (a x : α) (l : List α) :
    x ∈ insertSorted le a l ↔ x = a ∨ x ∈ l := by
  induction l with
  | nil => simp [insertSorted]
  | cons b l ih =>
    simp only [insertSorted]
    split
    · simp [List.mem_cons]
    · simp only [List.mem_cons, ih]
      tauto

theorem mem_sortBy {α : Type} (le : α → α → Bool) (x : α) (l : List α) :
    x ∈ sortBy le l ↔ x ∈ l := by
  induction l with
  | nil => simp [sortBy]
  | cons a l ih => simp [sortBy, mem_insertSorted, ih]


theorem natToDigitsCore_len_le (b : Nat) :
    ∀ (f n : Nat) (l : List Char), l.length ≤ (Nat.toDigitsCore b f n l).length := by
  intro f
  induction f with
  | zero => intro n l; simp [Nat.toDigitsCore]
  | succ f ih =>
    intro n l
    simp only [Nat.toDigitsCore]
    split
    · simp
    · exact le_trans (by simp) (ih _ _)

theorem natRepr_ne_empty (n : Nat) : Nat.repr n ≠ "" := by
  have h : 1 ≤ (Nat.toDigits 10 n).length := by
    by_cases hd : n / 10 = 0
    · simp [Nat.toDigits, Nat.toDigitsCore, hd]
    · simp only [Nat.toDigits, Nat.toDigitsCore, hd, if_false]
      exact le_trans (by simp) (natToDigitsCore_len_le 10 _ _ _)
  unfold Nat.repr
  intro hcon
  have h2 : (Nat.toDigits 10 n).asString.length = 0 := by rw [hcon]; rfl
  rw [List.length_asString] at h2
  omega

theorem find?_filter_head {α : Type} (p : α → Bool) (l : List α) :
    l.find? p = (l.filter p).head? := by
  induction l with
  | nil => rfl
  | cons a l ih =>
    by_cases h : p a
    · rw [List.find?_cons_of_pos _ h, List.filter_cons, if_pos h]
      rfl
    · rw [List.find?_cons_of_neg _ h, List.filter_cons, if_neg h, ih]

theorem find?_map_pred {α : Type} (f : α → α) (p : α → Bool) (l : List α)
    (hp : ∀ a, p (f a) = p a) :
    (l.map f).find? p = (l.find? p).map f := by
  induction l with
  | nil => rfl
  | cons a l ih => by_cases h : p a <;> simp [List.find?_cons, hp, h, ih]

theorem chromaGetToLearnings_map (recs : List ChromaRec) :
    chromaGetToLearnings (recs.map (fun r => r.id)) (recs.map (fun r => r.doc))
      (recs.map (fun r => r.meta)) = recs.map decodeRec := by
  induction recs with
  | nil => rfl
  | cons r recs ih => simp [chromaGetToLearnings, decodeRec, ih]

theorem chromaResultsToLearnings_map (recs : List ChromaRec) :
    chromaResultsToLearnings (recs.map (fun r => r.id)) (recs.map (fun r => r.doc))
      (recs.map (fun r => r.meta)) = recs.map decodeRec := by
  induction recs with
  | nil => rfl
  | cons r recs ih => simp [chromaResultsToLearnings, decodeRec, ih]

theorem getByID_of_find (st : ChromaStore) (id : String) (rec : ChromaRec)
    (h : chromaFind st id = some rec) :
    st.getByID true id = Except.ok (decodeRec rec) := by
  unfold chromaFind at h
  rw [find?_filter_head] at h
  unfold ChromaStore.getByID
  cases hf : st.filter (fun r => r.id == id) with
  | nil => rw [hf] at h; cases h
  | cons a t =>
    rw [hf] at h
    simp only [List.head?] at h
    injection h with h
    subst h
    simp [chromaGetToLearnings, decodeRec]

theorem handleBatch_ids {σ : Type} (ops : BackendOps σ) (reqs : List RequestM) :
    ∀ st : σ, (handleBatch ops st reqs).1.map (fun resp => resp.id) =
      (reqs.filter (fun r => r.id.isSome)).map (fun r => r.id) := by
  induction reqs with
  | nil => intro st; rfl
  | cons r rest ih =>
    intro st
    simp only [handleBatch, List.filter_cons]
    by_cases h : r.id.isSome
    · simp [h, ih]
    · simp [h, ih]

/- ───────────────────────── Claim theorems ───────────────────────── -/

/-- Claim C1, counterexample: on an empty remote store, the internal
fetch-by-id fails with `not found`, yet Update still returns success
instead of propagating that failure. -/
theorem chromaUpdate_not_found_still_ok :
    ChromaStore.getByID [] true ("77") = Except.error ("not found: 77") ∧
    (ChromaStore.update [] true true 5 ("77") ("c") ("t") 1).isOk = true :=
  ⟨rfl, rfl⟩

/-- Claim C1, amended: when the internal fetch-by-id of the remote
Update fails or finds no record, the fetch outcome is discarded and the
whole-record rewrite proceeds with defaults (category `general`,
use_count 0, created_at and updated_at stamped now); an error is
returned only if the write itself fails. -/
theorem chromaUpdate_discards_fetch_failure (st : ChromaStore) (fetchOk : Bool)
    (now : Instant) (id content tags : String) (conf : GoFloat)
    (h : (st.getByID fetchOk id).isOk = false) :
    st.update fetchOk true now id content tags conf =
      Except.ok (chromaWrite st id content
        [("category", MetaVal.str ("general")), ("tags", MetaVal.str tags),
         ("confidence", MetaVal.float conf), ("use_count", MetaVal.int 0),
         ("created_at", MetaVal.timeStr now), ("updated_at", MetaVal.timeStr now)]) := by
  have hopt : (st.getByID fetchOk id).toOption = none := by
    cases hx : st.getByID fetchOk id with
    | ok l => rw [hx] at h; simp [Except.isOk, Except.toBool] at h
    | error e => rfl
  simp [ChromaStore.update, hopt]

/-- Witness for the amended theorem of C1 at a concrete input. -/
theorem chromaUpdate_discards_fetch_failure_witness :
    ChromaStore.update [] true true 5 ("77") ("c") ("t") 1 =
      Except.ok (chromaWrite [] ("77") ("c")
        [("category", MetaVal.str ("general")), ("tags", MetaVal.str ("t")),
         ("confidence", MetaVal.float 1), ("use_count", MetaVal.int 0),
         ("created_at", MetaVal.timeStr 5), ("updated_at", MetaVal.timeStr 5)]) :=
  chromaUpdate_discards_fetch_failure [] true 5 ("77") ("c") ("t") 1 rfl

/-- Claim C3, counterexample: after a failed initialization (FTS5
creation failed), a Search still issues the full-text MATCH query first
and only then the LIKE fallback, so availability is re-probed on the
query. -/
theorem search_probes_fts_after_failed_init :
    ((SQLiteBackend.migrate false).search ("k") ("") 10).1 =
      [SQLQuery.ftsMatch, SQLQuery.likeScan] := rfl

/-- Claim C3, amended: the FTS index is created best-effort once at
initialization and no later operation changes its availability, but
Search attempts the full-text query on every call, falling back to the
substring scan exactly when that attempt fails; with a failed
initialization the results therefore always come from the fallback
path. -/
theorem search_trace_and_fallback_lifetime (fts : Bool) (db : SQLiteDB)
    (q c : String) (lim : Int) (now : Instant) (cat content tags id : String)
    (conf : GoFloat) :
    ((SQLiteBackend.migrate fts).ftsOk = fts) ∧
    ((db.search q c lim).1 =
      if db.ftsOk then [SQLQuery.ftsMatch] else [SQLQuery.ftsMatch, SQLQuery.likeScan]) ∧
    (db.ftsOk = false → (db.search q c lim).2 = db.likeFallback q c lim) ∧
    ((db.add now cat content tags conf).2.ftsOk = db.ftsOk) ∧
    ((db.update now id content tags conf).ftsOk = db.ftsOk) ∧
    ((db.delete id).ftsOk = db.ftsOk) ∧
    ((db.increment id).ftsOk = db.ftsOk) := by
  refine ⟨rfl, ?_, ?_, rfl, rfl, rfl, rfl⟩
  · by_cases h : db.ftsOk <;> simp [SQLiteDB.search, h]
  · intro h
    simp [SQLiteDB.search, h]

/-- Witness for the amended theorem of C3 at a concrete input. -/
theorem search_trace_and_fallback_lifetime_witness :
    ((SQLiteBackend.migrate false).search ("k") ("") 10).2 =
      (SQLiteBackend.migrate false).likeFallback ("k") ("") 10 :=
  (search_trace_and_fallback_lifetime false (SQLiteBackend.migrate false)
    ("k") ("") 10 0 ("a") ("b") ("c") ("d") 1).2.2.1 rfl

/-- Claim C4, counterexample: `bogus` is not a recognized category and is
not empty, yet store_learning persists it unchanged instead of replacing
it with `general`. -/
theorem store_keeps_unrecognized_category :
    ("bogus" ∉ validCategories) ∧
    ((HandleTool (sqliteOps 3) (SQLiteBackend.migrate true) ("store_learning")
        bogusArgs).2.rows.map (fun r => r.category)) = ["bogus"] :=
  ⟨by decide, rfl⟩

/-- Claim C4, amended: store_learning replaces only an *empty* category
argument by `general` before persisting; a non-empty unrecognized value
is persisted as given (the schema enum is advisory, not enforced). -/
theorem store_defaults_only_empty_category (db : SQLiteDB) (now : Instant)
    (args : RawArgs) (hdec : storeDecodeFailed args = false) :
    ((HandleTool (sqliteOps now) db ("store_learning") args).2.rows.map
        (fun r => r.category)) =
      (db.rows.map (fun r => r.category)) ++
        [if (storeParamsOf args).category == "" then ("general")
         else (storeParamsOf args).category] := by
  rw [show HandleTool (sqliteOps now) db ("store_learning") args =
        handleStore (sqliteOps now) db args from rfl]
  simp only [handleStore, hdec, Bool.false_eq_true, if_false, sqliteOps, SQLiteDB.add]
  by_cases h : (storeParamsOf args).category == ""
  · simp [h]
  · simp [h]

/-- Witness for the amended theorem of C4 at a concrete input. -/
theorem store_defaults_only_empty_category_witness :
    ((HandleTool (sqliteOps 3) (SQLiteBackend.migrate true) ("store_learning")
        bogusArgs).2.rows.map (fun r => r.category)) =
      (((SQLiteBackend.migrate true).rows.map (fun r => r.category))) ++
        [if (storeParamsOf bogusArgs).category == "" then ("general")
         else (storeParamsOf bogusArgs).category] :=
  store_defaults_only_empty_category (SQLiteBackend.migrate true) 3 bogusArgs rfl

/-- Claim C5, counterexample: an argument payload that fails to decode
for list_learnings does not produce an error-flagged result; the handler
ignores the decode error and proceeds, here answering with the ordinary
empty-store text. -/
theorem list_ignores_decode_failure :
    listDecodeFailed (some (Json.num 5)) = true ∧
    (HandleTool (sqliteOps 0) (SQLiteBackend.migrate true) ("list_learnings")
        (some (Json.num 5))).1 = textResult ("No learnings stored yet.") ∧
    ((HandleTool (sqliteOps 0) (SQLiteBackend.migrate true) ("list_learnings")
        (some (Json.num 5))).1).isError = false :=
  ⟨rfl, rfl, rfl⟩

/-- Claim C5, amended: argument-decode failures yield an error-flagged
text result, with the backend state untouched, for lookup_context,
store_learning, update_learning and delete_learning; list_learnings
ignores the decode error and proceeds with whatever fields decoded
(never an error-flagged result on the structured backend), and get_stats
takes no arguments. In every decodable tools/call the protocol layer
reports success, wrapping whatever the router produced. -/
theorem decode_failure_uniformity (db : SQLiteDB) (now : Instant) (args : RawArgs)
    (rid : Option Json) (params : RawArgs) (name : String) :
    (lookupDecodeFailed args = true →
      HandleTool (sqliteOps now) db ("lookup_context") args =
        (errorResult ("invalid arguments: " ++ decodeErrMsg), db)) ∧
    (storeDecodeFailed args = true →
      HandleTool (sqliteOps now) db ("store_learning") args =
        (errorResult ("invalid arguments: " ++ decodeErrMsg), db)) ∧
    (updateDecodeFailed args = true →
      HandleTool (sqliteOps now) db ("update_learning") args =
        (errorResult ("invalid arguments: " ++ decodeErrMsg), db)) ∧
    (deleteDecodeFailed args = true →
      HandleTool (sqliteOps now) db ("delete_learning") args =
        (errorResult ("invalid arguments: " ++ decodeErrMsg), db)) ∧
    ((HandleTool (sqliteOps now) db ("list_learnings") args).1.isError = false) ∧
    (decodeToolCallParams params = Except.ok (name, args) →
      (dispatch (sqliteOps now) db { id := rid, method := "tools/call", params := params }).1 =
        Except.ok (RespVal.toolResult (HandleTool (sqliteOps now) db name args).1)) := by
  refine ⟨?_, ?_, ?_, ?_, ?_, ?_⟩
  · intro h
    rw [show HandleTool (sqliteOps now) db ("lookup_context") args =
          handleLookup (sqliteOps now) db args from rfl]
    simp [handleLookup, h]
  · intro h
    rw [show HandleTool (sqliteOps now) db ("store_learning") args =
          handleStore (sqliteOps now) db args from rfl]
    simp [handleStore, h]
  · intro h
    rw [show HandleTool (sqliteOps now) db ("update_learning") args =
          handleUpdate (sqliteOps now) db args from rfl]
    simp [handleUpdate, h]
  · intro h
    rw [show HandleTool (sqliteOps now) db ("delete_learning") args =
          handleDelete (sqliteOps now) db args from rfl]
    simp [handleDelete, h]
  · rw [show HandleTool (sqliteOps now) db ("list_learnings") args =
          handleList (sqliteOps now) db args from rfl]
    simp only [handleList, sqliteOps]
    split
    · split
      · rfl
      · rfl
    · split
      · rfl
      · rfl
  · intro h
    rw [show dispatch (sqliteOps now) db { id := rid, method := "tools/call", params := params } =
          (match decodeToolCallParams params with
           | Except.error _ =>
               (Except.error { code := -32602, message := "invalid params" }, db)
           | Except.ok p =>
               let r := HandleTool (sqliteOps now) db p.1 p.2
               (Except.ok (RespVal.toolResult r.1), r.2)) from rfl]
    rw [h]

/-- Witness for the amended theorem of C5 at a concrete input. -/
theorem decode_failure_uniformity_witness :
    HandleTool (sqliteOps 0) (SQLiteBackend.migrate true) ("lookup_context")
        (some (Json.num 5)) =
      (errorResult ("invalid arguments: " ++ decodeErrMsg), SQLiteBackend.migrate true) ∧
    (dispatch (sqliteOps 0) (SQLiteBackend.migrate true)
        { id := none, method := "tools/call",
          params := some (Json.obj [("name", Json.str ("list_learnings")),
                                    ("arguments", Json.num 5)]) }).1 =
      Except.ok (RespVal.toolResult
        (HandleTool (sqliteOps 0) (SQLiteBackend.migrate true) ("list_learnings")
          (some (Json.num 5))).1) :=
  ⟨(decode_failure_uniformity (SQLiteBackend.migrate true) 0 (some (Json.num 5))
      none none ("x")).1 rfl,
   (decode_failure_uniformity (SQLiteBackend.migrate true) 0 (some (Json.num 5))
      none (some (Json.obj [("name", Json.str ("list_learnings")),
                            ("arguments", Json.num 5)])) ("list_learnings")).2.2.2.2.2 rfl⟩

/-- Claim C6, counterexample: a single notification (no identifier)
whose dispatch fails with method-not-found does get a response body,
carrying the transport error. -/
theorem notification_dispatch_error_writes_body :
    ((handleSingle (sqliteOps 0) (SQLiteBackend.migrate true)
        { id := none, method := "nope", params := none }).1.map
          (fun resp => resp.outcome)) =
      some (Except.error { code := -32601, message := "method not found: nope" }) ∧
    ((handleSingle (sqliteOps 0) (SQLiteBackend.migrate true)
        { id := none, method := "nope", params := none }).1.map
          (fun resp => resp.id.isNone)) = some true :=
  ⟨rfl, rfl⟩

/-- Claim C6, amended: a single notification produces no response body
exactly when its dispatch succeeds; a dispatch error produces an error
response body even without an identifier. In a batch, the response of a notification
is omitted whether dispatch succeeded or failed, and the
relative order of the responses that are produced mirrors the order of
the identifier-bearing requests. -/
theorem notification_response_rules (db : SQLiteDB) (now : Instant) (req : RequestM)
    (reqs : List RequestM) :
    (req.id = none → (dispatch (sqliteOps now) db req).1.isOk = true →
      (handleSingle (sqliteOps now) db req).1 = none) ∧
    (req.id = none → ∀ e, (dispatch (sqliteOps now) db req).1 = Except.error e →
      (handleSingle (sqliteOps now) db req).1 =
        some { id := none, outcome := Except.error e }) ∧
    ((handleBatch (sqliteOps now) db reqs).1.map (fun resp => resp.id) =
      (reqs.filter (fun r => r.id.isSome)).map (fun r => r.id)) := by
  refine ⟨?_, ?_, handleBatch_ids (sqliteOps now) reqs db⟩
  · intro hid hok
    cases hx : (dispatch (sqliteOps now) db req).1 with
    | ok v => simp only [handleSingle, hid, hx]
    | error e => rw [hx] at hok; simp [Except.isOk, Except.toBool] at hok
  · intro hid e he
    simp only [handleSingle, hid, he]

/-- Witness for the amended theorem of C6 at a concrete input. -/
theorem notification_response_rules_witness :
    (handleSingle (sqliteOps 0) (SQLiteBackend.migrate true)
      { id := none, method := "ping", params := none }).1 = none :=
  (notification_response_rules (SQLiteBackend.migrate true) 0
      { id := none, method := "ping", params := none } []).1 rfl rfl

/-- Claim C7: on both backends, a successful Add returns a Learning with
a non-empty id, use_count 0, and updated_at equal to created_at. -/
theorem add_returns_fresh_learning (db : SQLiteDB) (st : ChromaStore)
    (now nowc : Instant) (cat content tags catc contentc tagsc : String)
    (conf confc : GoFloat) :
    ((db.add now cat content tags conf).1.id ≠ "" ∧
     (db.add now cat content tags conf).1.useCount = 0 ∧
     (db.add now cat content tags conf).1.updatedAt =
       (db.add now cat content tags conf).1.createdAt) ∧
    (∃ l st2, ChromaStore.add st true nowc catc contentc tagsc confc =
        Except.ok (l, st2) ∧
      l.id ≠ "" ∧ l.useCount = 0 ∧ l.updatedAt = l.createdAt) := by
  constructor
  · refine ⟨?_, rfl, rfl⟩
    show Nat.repr db.nextId ≠ ""
    exact natRepr_ne_empty db.nextId
  · refine ⟨_, _, rfl, ?_, rfl, rfl⟩
    show Nat.repr nowc ≠ ""
    exact natRepr_ne_empty nowc

/-- Claim C9: decoding a metadata map into a Learning is total and
tolerant: use_count is accepted whether the dynamic value is an integer
or a floating-point number, and every absent or unexpectedly-typed field
is left at its zero value rather than failing the decode. -/
theorem metaToLearning_total_tolerant (id doc : String)
    (meta : List (String × MetaVal)) :
    ((metaToLearning id doc meta).id = id ∧ (metaToLearning id doc meta).content = doc) ∧
    (∀ n : Int, meta.lookup ("use_count") = some (MetaVal.int n) →
      (metaToLearning id doc meta).useCount = n) ∧
    (∀ q : GoFloat, meta.lookup ("use_count") = some (MetaVal.float q) →
      (metaToLearning id doc meta).useCount = ratTrunc q) ∧
    (isNumLike (meta.lookup ("use_count")) = false →
      (metaToLearning id doc meta).useCount = 0) ∧
    (isStrLike (meta.lookup ("category")) = false →
      (metaToLearning id doc meta).category = "") ∧
    (isStrLike (meta.lookup ("tags")) = false →
      (metaToLearning id doc meta).tags = "") ∧
    (isFloatLike (meta.lookup ("confidence")) = false →
      (metaToLearning id doc meta).confidence = 0) ∧
    (isTimeLike (meta.lookup ("created_at")) = false →
      (metaToLearning id doc meta).createdAt = 0) ∧
    (isTimeLike (meta.lookup ("updated_at")) = false →
      (metaToLearning id doc meta).updatedAt = 0) := by
  refine ⟨⟨rfl, rfl⟩, ?_, ?_, ?_, ?_, ?_, ?_, ?_, ?_⟩
  · intro n h; simp [metaToLearning, h]
  · intro q h; simp [metaToLearning, h]
  · intro h
    cases hm : meta.lookup ("use_count") with
    | none => simp [metaToLearning, hm]
    | some v =>
      rw [hm] at h
      cases v with
      | str s => simp [metaToLearning, hm]
      | timeStr t => simp [metaToLearning, hm]
      | int n => simp [isNumLike] at h
      | float q => simp [isNumLike] at h
      | boolVal b => simp [metaToLearning, hm]
  · intro h
    cases hm : meta.lookup ("category") with
    | none => simp [metaToLearning, hm]
    | some v =>
      rw [hm] at h
      cases v with
      | str s => simp [isStrLike] at h
      | timeStr t => simp [isStrLike] at h
      | int n => simp [metaToLearning, hm]
      | float q => simp [metaToLearning, hm]
      | boolVal b => simp [metaToLearning, hm]
  · intro h
    cases hm : meta.lookup ("tags") with
    | none => simp [metaToLearning, hm]
    | some v =>
      rw [hm] at h
      cases v with
      | str s => simp [isStrLike] at h
      | timeStr t => simp [isStrLike] at h
      | int n => simp [metaToLearning, hm]
      | float q => simp [metaToLearning, hm]
      | boolVal b => simp [metaToLearning, hm]
  · intro h
    cases hm : meta.lookup ("confidence") with
    | none => simp [metaToLearning, hm]
    | some v =>
      rw [hm] at h
      cases v with
      | str s => simp [metaToLearning, hm]
      | timeStr t => simp [metaToLearning, hm]
      | int n => simp [metaToLearning, hm]
      | float q => simp [isFloatLike] at h
      | boolVal b => simp [metaToLearning, hm]
  · intro h
    cases hm : meta.lookup ("created_at") with
    | none => simp [metaToLearning, hm]
    | some v =>
      rw [hm] at h
      cases v with
      | str s => simp [metaToLearning, hm]
      | timeStr t => simp [isTimeLike] at h
      | int n => simp [metaToLearning, hm]
      | float q => simp [metaToLearning, hm]
      | boolVal b => simp [metaToLearning, hm]
  · intro h
    cases hm : meta.lookup ("updated_at") with
    | none => simp [metaToLearning, hm]
    | some v =>
      rw [hm] at h
      cases v with
      | str s => simp [metaToLearning, hm]
      | timeStr t => simp [isTimeLike] at h
      | int n => simp [metaToLearning, hm]
      | float q => simp [metaToLearning, hm]
      | boolVal b => simp [metaToLearning, hm]

/-- Witness for the theorem of C9 at a concrete metadata map: a float-typed
use_count decodes by truncation, and a string-typed confidence falls
back to zero. -/
theorem metaToLearning_total_tolerant_witness :
    (metaToLearning ("a") ("d")
        [("use_count", MetaVal.float 3), ("confidence", MetaVal.str ("x"))]).useCount =
      ratTrunc 3 ∧
    (metaToLearning ("a") ("d")
        [("use_count", MetaVal.float 3), ("confidence", MetaVal.str ("x"))]).confidence = 0 :=
  ⟨(metaToLearning_total_tolerant ("a") ("d")
      [("use_count", MetaVal.float 3), ("confidence", MetaVal.str ("x"))]).2.2.1 3 rfl,
   (metaToLearning_total_tolerant ("a") ("d")
      [("use_count", MetaVal.float 3), ("confidence", MetaVal.str ("x"))]).2.2.2.2.2.2.1 rfl⟩

/-- Claim C10: a tools/call naming an unknown tool yields an
error-flagged text result naming the tool, leaves the backend untouched,
and the dispatcher still reports transport-level success rather than a
method-not-found or invalid-params error. -/
theorem unknown_tool_error_result (db : SQLiteDB) (now : Instant)
    (name : String) (args : RawArgs) (params : RawArgs) (rid : Option Json)
    (hname : name ∉ toolNames)
    (hp : decodeToolCallParams params = Except.ok (name, args)) :
    (HandleTool (sqliteOps now) db name args).1 =
      errorResult ("unknown tool: " ++ name) ∧
    (HandleTool (sqliteOps now) db name args).2 = db ∧
    (dispatch (sqliteOps now) db { id := rid, method := "tools/call", params := params }).1 =
      Except.ok (RespVal.toolResult (errorResult ("unknown tool: " ++ name))) := by
  simp only [toolNames, List.mem_cons, List.not_mem_nil, or_false, not_or] at hname
  obtain ⟨n1, n2, n3, n4, n5, n6⟩ := hname
  have hno : HandleTool (sqliteOps now) db name args =
      (errorResult ("unknown tool: " ++ name), db) := by
    simp [HandleTool, beq_iff_eq, n1, n2, n3, n4, n5, n6]
  refine ⟨by rw [hno], by rw [hno], ?_⟩
  rw [show dispatch (sqliteOps now) db { id := rid, method := "tools/call", params := params } =
        (match decodeToolCallParams params with
         | Except.error _ =>
             (Except.error { code := -32602, message := "invalid params" }, db)
         | Except.ok p =>
             let r := HandleTool (sqliteOps now) db p.1 p.2
             (Except.ok (RespVal.toolResult r.1), r.2)) from rfl]
  rw [hp]
  simp [hno]

/-- Witness for the theorem of C10 at a concrete unknown tool name. -/
theorem unknown_tool_error_result_witness :
    (HandleTool (sqliteOps 0) (SQLiteBackend.migrate true) ("frobnicate") none).1 =
      errorResult ("unknown tool: " ++ "frobnicate") :=
  (unknown_tool_error_result (SQLiteBackend.migrate true) 0 ("frobnicate") none
    (some (Json.obj [("name", Json.str ("frobnicate"))])) none (by decide) rfl).1

theorem sqlite_update_findRow (db : SQLiteDB) (now : Instant) (id content tags : String)
    (conf : GoFloat) (r : SQLiteRow) (h : db.findRow id = some r) :
    (db.update now id content tags conf).findRow id =
      some { r with content := content, tags := tags, confidence := conf,
                    updatedAt := now } := by
  unfold SQLiteDB.findRow SQLiteDB.update at *
  rw [find?_map_pred]
  · rw [h]
    have hp : sqliteIdMatches r id = true :=
      @List.find?_some _ (fun x => sqliteIdMatches x id) r db.rows h
    simp [hp]
  · intro a
    by_cases hpa : sqliteIdMatches a id
    · rw [if_pos hpa]
      rfl
    · rw [if_neg hpa]

theorem chroma_update_found (st : ChromaStore) (now : Instant) (id content tags : String)
    (conf : GoFloat) (rec : ChromaRec) (h : chromaFind st id = some rec) :
    st.update true true now id content tags conf =
      Except.ok (chromaWrite st id content
        [("category", MetaVal.str ((decodeRec rec).category)),
         ("tags", MetaVal.str tags), ("confidence", MetaVal.float conf),
         ("use_count", MetaVal.int ((decodeRec rec).useCount)),
         ("created_at", MetaVal.timeStr ((decodeRec rec).createdAt)),
         ("updated_at", MetaVal.timeStr now)]) := by
  have hg := getByID_of_find st id rec h
  simp [ChromaStore.update, hg, Except.toOption]

theorem chromaFind_write (st : ChromaStore) (id doc : String)
    (meta : List (String × MetaVal)) (rec : ChromaRec)
    (h : chromaFind st id = some rec) :
    chromaFind (chromaWrite st id doc meta) id =
      some { rec with doc := doc, meta := meta } := by
  unfold chromaFind chromaWrite at *
  rw [find?_map_pred]
  · rw [h]
    have hp : (rec.id == id) = true :=
      @List.find?_some _ (fun x => x.id == id) rec st h
    have hpe : rec.id = id := by simpa using hp
    simp [hpe]
  · intro a
    by_cases hpa : (a.id == id)
    · rw [if_pos hpa]
    · rw [if_neg hpa]

theorem decodeRec_write_fields (rec : ChromaRec) (content tags cat : String)
    (conf : GoFloat) (uc : Int) (cr now : Instant) :
    decodeRec { rec with
                doc := content,
                meta := [("category", MetaVal.str cat), ("tags", MetaVal.str tags),
                         ("confidence", MetaVal.float conf), ("use_count", MetaVal.int uc),
                         ("created_at", MetaVal.timeStr cr),
                         ("updated_at", MetaVal.timeStr now)] } =
      { id := rec.id, category := cat, content := content, tags := tags,
        confidence := conf, useCount := uc, createdAt := cr, updatedAt := now } := rfl

/-- Claim C2, counterexample: on the remote backend the preservation of
category and use_count is conditional on the internal fetch succeeding.
With an existing entity (category `preferences`, use_count 4), a failed
internal fetch and a successful write, Update rewrites the record with
category `general` and use_count 0 — the original unconditional claim is
false. -/
theorem chromaUpdate_fetch_failure_clobbers :
    chromaFind stUpd ("9") = some recUpd ∧
    (decodeRec recUpd).category = "preferences" ∧
    (decodeRec recUpd).useCount = 4 ∧
    (ChromaStore.update stUpd false true 9 ("9") ("new") ("nt") 1).toOption.map
        (fun st2 => (chromaFind st2 ("9")).map
          (fun r => ((decodeRec r).category, (decodeRec r).useCount))) =
      some (some ("general", 0)) :=
  ⟨rfl, rfl, rfl, rfl⟩

/-- Claim C2, amended: updating an existing entity replaces content,
tags and confidence and stamps updated_at with the current instant on
both backends; category, use_count and created_at are always preserved
on the structured backend, and on the remote backend they are preserved
(in the decoded view of the rewritten record) provided the internal
fetch-by-id succeeded — with a failed fetch they are reset to the
defaults instead, as the counterexample shows. -/
theorem update_preserves_category_useCount
    (db : SQLiteDB) (st : ChromaStore) (now nowc : Instant)
    (idq idc content tags contentc tagsc : String) (conf confc : GoFloat)
    (r : SQLiteRow) (hr : db.findRow idq = some r)
    (rec : ChromaRec) (hrec : chromaFind st idc = some rec) :
    (∃ r2, (db.update now idq content tags conf).findRow idq = some r2 ∧
      r2.category = r.category ∧ r2.useCount = r.useCount ∧
      r2.createdAt = r.createdAt ∧ r2.content = content ∧ r2.tags = tags ∧
      r2.confidence = conf ∧ r2.updatedAt = now) ∧
    (∃ st2, st.update true true nowc idc contentc tagsc confc = Except.ok st2 ∧
      ∃ rec2, chromaFind st2 idc = some rec2 ∧
        (decodeRec rec2).category = (decodeRec rec).category ∧
        (decodeRec rec2).useCount = (decodeRec rec).useCount ∧
        (decodeRec rec2).createdAt = (decodeRec rec).createdAt ∧
        (decodeRec rec2).content = contentc ∧ (decodeRec rec2).tags = tagsc ∧
        (decodeRec rec2).confidence = confc ∧ (decodeRec rec2).updatedAt = nowc) := by
  constructor
  · exact ⟨_, sqlite_update_findRow db now idq content tags conf r hr,
      rfl, rfl, rfl, rfl, rfl, rfl, rfl⟩
  · refine ⟨_, chroma_update_found st nowc idc contentc tagsc confc rec hrec, ?_⟩
    refine ⟨_, chromaFind_write st idc contentc _ rec hrec, ?_⟩
    rw [decodeRec_write_fields]
    exact ⟨rfl, rfl, rfl, rfl, rfl, rfl, rfl⟩

/-- Witness for the theorem of C2 at a concrete row and record. -/
theorem update_preserves_category_useCount_witness :
    ∃ r2, ((dbUpd.update 9 ("1") ("new") ("nt") 1).findRow ("1")) = some r2 ∧
      r2.category = rowUpd.category ∧ r2.useCount = rowUpd.useCount ∧
      r2.createdAt = rowUpd.createdAt ∧ r2.content = "new" ∧ r2.tags = "nt" ∧
      r2.confidence = 1 ∧ r2.updatedAt = 9 :=
  (update_preserves_category_useCount dbUpd stUpd 9 9 ("1") ("9") ("new") ("nt")
    ("cnew") ("tnew") 1 1 rowUpd rfl recUpd rfl).1

theorem mem_search_pipeline (rows : List SQLiteRow) (p : SQLiteRow → Bool)
    (le : SQLiteRow → SQLiteRow → Bool) (n : Nat) (l : Learning)
    (h : l ∈ ((sortBy le (rows.filter p)).take n).map rowToLearning) :
    ∃ r, p r = true ∧ l = rowToLearning r := by
  rcases List.mem_map.mp h with ⟨r, hr, rfl⟩
  have hr2 : r ∈ sortBy le (rows.filter p) := List.mem_of_mem_take hr
  have hr3 : r ∈ rows.filter p := (mem_sortBy le r _).mp hr2
  exact ⟨r, (List.mem_filter.mp hr3).2, rfl⟩

theorem categoryClause_eq (c : String) (r : SQLiteRow) (hc : c ≠ "")
    (h : categoryClause c r = true) : r.category = c := by
  simp [categoryClause, hc] at h
  exact h

theorem chromaWhereCat_lookup (c : String) (r : ChromaRec) (hc : c ≠ "")
    (h : chromaWhereCat c r = true) :
    r.meta.lookup ("category") = some (MetaVal.str c) := by
  simp [chromaWhereCat, hc] at h
  exact h

theorem decodeRec_category_of_lookup (r : ChromaRec) (c : String)
    (h : r.meta.lookup ("category") = some (MetaVal.str c)) :
    (decodeRec r).category = c := by
  simp [decodeRec, metaToLearning, h]

/-- Claim C8: with a non-empty category filter, every Learning returned
by Search or List, on either backend, carries exactly the filter
category. -/
theorem category_filter_invariant (db : SQLiteDB) (st : ChromaStore)
    (q c : String) (lim : Int) (l : Learning) (hc : c ≠ "") :
    (l ∈ (db.search q c lim).2 → l.category = c) ∧
    (l ∈ db.list c lim → l.category = c) ∧
    (∀ ls, st.searchOp true q c lim = Except.ok ls → l ∈ ls → l.category = c) ∧
    (∀ ls, st.listOp true c lim = Except.ok ls → l ∈ ls → l.category = c) := by
  refine ⟨?_, ?_, ?_, ?_⟩
  · intro h
    unfold SQLiteDB.search at h
    by_cases hf : db.ftsOk = true
    · simp only [hf, if_true] at h
      rcases mem_search_pipeline _ _ _ _ _ h with ⟨r, hp, rfl⟩
      exact categoryClause_eq c r hc (Bool.and_eq_true _ _ ▸ hp).2
    · simp only [hf, if_false] at h
      unfold SQLiteDB.likeFallback at h
      rcases mem_search_pipeline _ _ _ _ _ h with ⟨r, hp, rfl⟩
      exact categoryClause_eq c r hc (Bool.and_eq_true _ _ ▸ hp).2
  · intro h
    unfold SQLiteDB.list at h
    rcases mem_search_pipeline _ _ _ _ _ h with ⟨r, hp, rfl⟩
    exact categoryClause_eq c r hc hp
  · intro ls hls hmem
    simp only [ChromaStore.searchOp, if_true, Except.ok.injEq,
      chromaResultsToLearnings_map] at hls
    rw [← hls] at hmem
    rcases List.mem_map.mp hmem with ⟨rec, hrec, rfl⟩
    have hrec2 : rec ∈ st.filter (fun x => chromaWhereCat c x) :=
      List.mem_of_mem_take hrec
    exact decodeRec_category_of_lookup rec c
      (chromaWhereCat_lookup c rec hc (List.mem_filter.mp hrec2).2)
  · intro ls hls hmem
    simp only [ChromaStore.listOp, if_true, Except.ok.injEq,
      chromaGetToLearnings_map] at hls
    rw [← hls] at hmem
    have hmem2 := (mem_sortBy _ _ _).mp hmem
    rcases List.mem_map.mp hmem2 with ⟨rec, hrec, rfl⟩
    have hrec2 : rec ∈ st.filter (fun x => chromaWhereCat c x) :=
      List.mem_of_mem_take hrec
    exact decodeRec_category_of_lookup rec c
      (chromaWhereCat_lookup c rec hc (List.mem_filter.mp hrec2).2)

/-- Witness for the theorem of C8 at concrete stores holding one matching
entry each. -/
theorem category_filter_invariant_witness :
    (rowToLearning rowTech).category = "technical" ∧
    (decodeRec recTech).category = "technical" :=
  ⟨(category_filter_invariant dbTech stTech ("hello") ("technical") 10
      (rowToLearning rowTech) (by decide)).1 (by decide),
   (category_filter_invariant dbTech stTech ("hello") ("technical") 10
      (decodeRec recTech) (by decide)).2.2.1 _ rfl (by decide)⟩
